import Mathlib

/-!
Verification of the usbcat example gadget (examples/usbcat/device.py).

The development shallowly embeds the pure control logic of the example:
the outbound endpoint adapter (`EndpointINFile`) with its stranded-buffer
deque and backpressure callbacks, the inbound adapter (`EndpointOUTFile`),
the lifecycle handlers of `USBCat`, the epoll-based readiness loop of
`SubprocessCat.run`, and the UTF-8 transcoding applied when the local
streams are text-mode.  Byte buffers are `List Nat`, statuses are `Int`,
and the trace output is reified as a list of `LogLine`s.
-/

namespace UsbCat

/-- errno.ENOENT. -/
def ENOENT : Nat := 2
/-- errno.EINTR. -/
def EINTR : Nat := 4
/-- errno.EEXIST. -/
def EEXIST : Nat := 17
/-- errno.ESHUTDOWN, as an `Int` so that `-ESHUTDOWN` is a completion status. -/
def ESHUTDOWN : Int := 108

/-- A submitted buffer list, as handed to `submit`.  The example never looks
inside a queued buffer list, so its bytes are an opaque `List Nat`. -/
abbrev BufferList := List Nat

/-- One line of `trace(...)` output emitted by the example's callbacks. -/
inductive LogLine
  /-- `trace('aio write completion error:', -status)` -/
  | writeError (e : Int)
  /-- `trace('aio write completion sent', status, 'bytes')` -/
  | writeSent (n : Int)
  /-- `trace('aio read completion error:', -status)` -/
  | readError (e : Int)
  /-- `trace('aio read completion received', len(data), 'bytes')` -/
  | readReceived (n : Nat)
  /-- `trace('send queue full, pause sending')` -/
  | queueFull
  /-- `trace('send queue has room, resume sending')` -/
  | queueRoom
  deriving DecidableEq, Repr

/-- The mutable state of `EndpointINFile`: the deque of buffer lists whose
submission got EAGAIN, oldest first. -/
structure EndpointINFile where
  stranded_buffer_list_queue : List BufferList
  deriving DecidableEq, Repr

/-- Result of `EndpointINFile.onComplete`: the new endpoint state, the trace
lines printed, whether `self.__onCanSend()` was invoked, and the buffer list
returned for resubmission (`None` is `none`). -/
structure CompleteResult where
  state : EndpointINFile
  log : List LogLine
  canSendFired : Bool
  resubmit : Option BufferList
  deriving DecidableEq, Repr

/-- `EndpointINFile.onComplete(buffer_list, user_data, status)`:
log success or error; then, unless the status is `-ESHUTDOWN` or the stranded
queue is empty, pop the oldest stranded buffer list, fire `onCanSend` if that
emptied the queue, and return the popped buffer list for resubmission. -/
def EndpointINFile.onComplete (s : EndpointINFile) (status : Int) : CompleteResult :=
  let log := if status < 0 then [LogLine.writeError (-status)] else [LogLine.writeSent status]
  match s.stranded_buffer_list_queue with
  | [] => { state := s, log := log, canSendFired := false, resubmit := none }
  | buffer_list :: rest =>
    if status = -ESHUTDOWN then
      { state := s, log := log, canSendFired := false, resubmit := none }
    else
      { state := { stranded_buffer_list_queue := rest }
        log := log ++ (if rest.isEmpty then [LogLine.queueRoom] else [])
        canSendFired := rest.isEmpty
        resubmit := some buffer_list }

/-- Result of `EndpointINFile.onSubmitEAGAIN`: new state, trace lines, and
whether `self.__onCannotSend()` was invoked. -/
structure EAGAINResult where
  state : EndpointINFile
  log : List LogLine
  cannotSendFired : Bool
  deriving DecidableEq, Repr

/-- `EndpointINFile.onSubmitEAGAIN(buffer_list, user_data)`: append the
rejected buffer list to the stranded queue and invoke `onCannotSend`
(unconditionally — the source has no emptiness test here). -/
def EndpointINFile.onSubmitEAGAIN (s : EndpointINFile) (buffer_list : BufferList) :
    EAGAINResult :=
  { state := { stranded_buffer_list_queue := s.stranded_buffer_list_queue ++ [buffer_list] }
    log := [LogLine.queueFull]
    cannotSendFired := true }

/-- `EndpointINFile.forgetStranded()`: clear the stranded queue. -/
def EndpointINFile.forgetStranded (_s : EndpointINFile) : EndpointINFile :=
  { stranded_buffer_list_queue := [] }

/-! ## The epoll registration of local input (backpressure state)

`SubprocessCat` registers or unregisters `sys.stdin` with its epoll object.
The registration state of stdin is a `Bool`.  Linux `epoll_ctl` (and hence
`select.epoll`) fails with EEXIST when adding an fd that is already
registered and with ENOENT when removing one that is not; the model returns
`Except errno newState`. -/

/-- `epoll.register(fd)`: fails with EEXIST when the fd is already registered. -/
def epollRegister (registered : Bool) : Except Nat Bool :=
  if registered then Except.error EEXIST else Except.ok true

/-- `epoll.unregister(fd)`: fails with ENOENT when the fd is not registered. -/
def epollUnregister (registered : Bool) : Except Nat Bool :=
  if registered then Except.ok false else Except.error ENOENT

/-- `SubprocessCat.__onCanSend`: `self.__epoll.register(sys.stdin, EPOLLIN)`,
with no exception handling. -/
def SubprocessCat.onCanSend (registered : Bool) : Except Nat Bool :=
  epollRegister registered

/-- `SubprocessCat.__stopSender`: unregister stdin, swallowing only ENOENT
(`except IOError as exc: if exc.errno != errno.ENOENT: raise`). -/
def SubprocessCat.stopSender (registered : Bool) : Except Nat Bool :=
  match epollUnregister registered with
  | Except.ok r => Except.ok r
  | Except.error e => if e ≠ ENOENT then Except.error e else Except.ok registered

/-- `USBCat.onDisable`: `self.in_ep.forgetStranded()` then
`self.__onCannotSend()` (which is `SubprocessCat.__stopSender`). -/
def USBCat.onDisable (ep : EndpointINFile) (registered : Bool) :
    EndpointINFile × Except Nat Bool :=
  (ep.forgetStranded, SubprocessCat.stopSender registered)

/-- `USBCat.onUnbind`: `self.in_ep.forgetStranded()` then
`self.__onCannotSend()`, before the framework releases endpoint files. -/
def USBCat.onUnbind (ep : EndpointINFile) (registered : Bool) :
    EndpointINFile × Except Nat Bool :=
  (ep.forgetStranded, SubprocessCat.stopSender registered)

/-! ## Composed outbound machine

Events driving the outbound path: a fresh submission from the sender (which
the device either accepts or rejects with EAGAIN, invoking
`onSubmitEAGAIN`), and a completion (invoking `onComplete`).

Modelled from the spec: the resubmission mechanism lives in the functionfs
framework (`functionfs/__init__.py`, not part of the example); per §4.1 the
adapter "dequeues the oldest buffer and returns it for immediate
resubmission" — a completion frees a device slot, so the returned buffer
list is resubmitted immediately and successfully. -/

/-- An event of the composed outbound machine. -/
inductive CatEvent
  /-- The sender submits `buffer_list`; the device accepts it or rejects it
  with EAGAIN. -/
  | submit (buffer_list : BufferList) (accepted : Bool)
  /-- A completion with the given status is delivered for an in-flight
  transfer. -/
  | complete (status : Int)
  deriving DecidableEq, Repr

/-- State of the composed outbound machine: the endpoint adapter, counters of
`onCanSend` / `onCannotSend` callback invocations, and the buffer lists
handed back for resubmission, in order. -/
structure CatState where
  ep : EndpointINFile
  canSendCount : Nat
  cannotSendCount : Nat
  resubmitted : List BufferList
  deriving DecidableEq, Repr

/-- Initial composed state: empty stranded queue, no callbacks fired. -/
def CatState.init : CatState :=
  { ep := { stranded_buffer_list_queue := [] }
    canSendCount := 0
    cannotSendCount := 0
    resubmitted := [] }

/-- One step of the composed outbound machine. -/
def catStep (s : CatState) (e : CatEvent) : CatState :=
  match e with
  | CatEvent.submit buffer_list accepted =>
    if accepted then s
    else
      let r := s.ep.onSubmitEAGAIN buffer_list
      { s with
        ep := r.state
        cannotSendCount := s.cannotSendCount + (if r.cannotSendFired then 1 else 0) }
  | CatEvent.complete status =>
    let r := s.ep.onComplete status
    { s with
      ep := r.state
      canSendCount := s.canSendCount + (if r.canSendFired then 1 else 0)
      resubmitted := s.resubmitted ++ (match r.resubmit with
        | some b => [b]
        | none => []) }

/-- Run the composed machine from the initial state. -/
def catRun (es : List CatEvent) : CatState :=
  es.foldl catStep CatState.init

/-- The buffer lists of a trace whose submission was rejected, in submission
order. -/
def rejectedOf (es : List CatEvent) : List BufferList :=
  es.filterMap fun e =>
    match e with
    | CatEvent.submit b accepted => if accepted then none else some b
    | CatEvent.complete _ => none

/-- The sequence of states visited when running the machine from `s`
(including `s` itself). -/
def catStatesFrom (s : CatState) : List CatEvent → List CatState
  | [] => [s]
  | e :: es => s :: catStatesFrom (catStep s e) es

/-- The states visited by a run from the initial state. -/
def catStates (es : List CatEvent) : List CatState :=
  catStatesFrom CatState.init es

/-- Number of adjacent state pairs whose stranded queue goes from empty to
non-empty. -/
def countEmptyToNonempty : List CatState → Nat
  | s :: s' :: rest =>
    (if s.ep.stranded_buffer_list_queue = [] ∧ s'.ep.stranded_buffer_list_queue ≠ []
      then 1 else 0) + countEmptyToNonempty (s' :: rest)
  | _ => 0

/-- Number of adjacent state pairs whose stranded queue goes from non-empty
to empty. -/
def countNonemptyToEmpty : List CatState → Nat
  | s :: s' :: rest =>
    (if s.ep.stranded_buffer_list_queue ≠ [] ∧ s'.ep.stranded_buffer_list_queue = []
      then 1 else 0) + countNonemptyToEmpty (s' :: rest)
  | _ => 0

/-! ## Inbound endpoint adapter (`EndpointOUTFile`) -/

/-- `EndpointOUTFile.onComplete(data, status)`: on error (`data is None`)
log it and make no writer call; on success log the length and call
`self.__writer(data.tobytes())`.  Returns the trace lines and the list of
writer invocations (zero or one). -/
def EndpointOUTFile.onComplete (data : Option BufferList) (status : Int) :
    List LogLine × List BufferList :=
  match data with
  | none => ([LogLine.readError (-status)], [])
  | some d => ([LogLine.readReceived d.length], [d])

/-- Writer invocations produced by a sequence of read completions, each
completion given as the `(data, status)` pair passed to
`EndpointOUTFile.onComplete`, processed in completion order. -/
def sinkCalls : List (Option BufferList × Int) → List BufferList
  | [] => []
  | c :: rest => (EndpointOUTFile.onComplete c.1 c.2).2 ++ sinkCalls rest

/-! ## UTF-8 transcoding of text-mode local streams

`sender` calls `value.encode('utf-8', errors="replace")` when stdin yields
`str`, and `SubprocessCat.__writer` calls `value.decode('utf-8',
errors='replace')` when stdout has an encoding.  The two functions below
embed CPython's UTF-8 codec with `errors='replace'`: encoding replaces each
unencodable code point (a lone surrogate) with `'?'` (0x3F); decoding
replaces each maximal ill-formed subsequence with U+FFFD. -/

/-- UTF-8 encoding of one code point, with `errors='replace'` mapping lone
surrogates to `'?'`. -/
def utf8EncodeChar (c : Nat) : List Nat :=
  if c < 0x80 then [c]
  else if c < 0x800 then [0xC0 + c / 64, 0x80 + c % 64]
  else if 0xD800 ≤ c ∧ c < 0xE000 then [0x3F]
  else if c < 0x10000 then [0xE0 + c / 4096, 0x80 + c / 64 % 64, 0x80 + c % 64]
  else [0xF0 + c / 262144, 0x80 + c / 4096 % 64, 0x80 + c / 64 % 64, 0x80 + c % 64]

/-- `str.encode('utf-8', errors="replace")` over a list of code points. -/
def pyUtf8EncodeReplace (cs : List Nat) : List Nat :=
  (cs.map utf8EncodeChar).flatten

/-- Is `b` a UTF-8 continuation byte (0x80–0xBF)? -/
def isCont (b : Nat) : Bool :=
  0x80 ≤ b ∧ b < 0xC0

/-- `bytes.decode('utf-8', errors='replace')`: decode valid sequences
(rejecting overlong forms, surrogates and values above U+10FFFF via the
restricted second-byte ranges) and emit one U+FFFD per maximal ill-formed
subsequence. -/
def pyUtf8DecodeReplace : List Nat → List Nat
  | [] => []
  | b :: rest =>
    if b < 0x80 then b :: pyUtf8DecodeReplace rest
    else if 0xC2 ≤ b ∧ b ≤ 0xDF then
      match rest with
      | [] => [0xFFFD]
      | b2 :: rest2 =>
        if isCont b2 then
          ((b - 0xC0) * 64 + (b2 - 0x80)) :: pyUtf8DecodeReplace rest2
        else 0xFFFD :: pyUtf8DecodeReplace (b2 :: rest2)
    else if 0xE0 ≤ b ∧ b ≤ 0xEF then
      let lo2 := if b = 0xE0 then 0xA0 else 0x80
      let hi2 := if b = 0xED then 0x9F else 0xBF
      match rest with
      | [] => [0xFFFD]
      | b2 :: rest2 =>
        if lo2 ≤ b2 ∧ b2 ≤ hi2 then
          match rest2 with
          | [] => [0xFFFD]
          | b3 :: rest3 =>
            if isCont b3 then
              ((b - 0xE0) * 4096 + (b2 - 0x80) * 64 + (b3 - 0x80)) ::
                pyUtf8DecodeReplace rest3
            else 0xFFFD :: pyUtf8DecodeReplace (b3 :: rest3)
        else 0xFFFD :: pyUtf8DecodeReplace (b2 :: rest2)
    else if 0xF0 ≤ b ∧ b ≤ 0xF4 then
      let lo2 := if b = 0xF0 then 0x90 else 0x80
      let hi2 := if b = 0xF4 then 0x8F else 0xBF
      match rest with
      | [] => [0xFFFD]
      | b2 :: rest2 =>
        if lo2 ≤ b2 ∧ b2 ≤ hi2 then
          match rest2 with
          | [] => [0xFFFD]
          | b3 :: rest3 =>
            if isCont b3 then
              match rest3 with
              | [] => [0xFFFD]
              | b4 :: rest4 =>
                if isCont b4 then
                  ((b - 0xF0) * 262144 + (b2 - 0x80) * 4096 + (b3 - 0x80) * 64 +
                      (b4 - 0x80)) :: pyUtf8DecodeReplace rest4
                else 0xFFFD :: pyUtf8DecodeReplace (b4 :: rest4)
            else 0xFFFD :: pyUtf8DecodeReplace (b3 :: rest3)
        else 0xFFFD :: pyUtf8DecodeReplace (b2 :: rest2)
    else 0xFFFD :: pyUtf8DecodeReplace rest

/-! ## Local streams and the sender -/

/-- A chunk returned by `sys.stdin.read(BUF_SIZE)`: raw bytes in binary
mode, code points in text mode (where `value` has an `encode` attribute). -/
inductive LocalChunk
  | binary (bs : List Nat)
  | text (cs : List Nat)
  deriving DecidableEq, Repr

/-- Python falsiness of the chunk (`if not value`). -/
def LocalChunk.isEmpty : LocalChunk → Bool
  | LocalChunk.binary bs => bs.isEmpty
  | LocalChunk.text cs => cs.isEmpty

/-- Exceptions that flow through `SubprocessCat.run`. -/
inductive Exc
  | eofError
  | keyboardInterrupt
  | osError (e : Nat)
  deriving DecidableEq, Repr

/-- The `sender` closure of `SubprocessCat.run`: read a chunk, raise
`EOFError` on end-of-input, UTF-8-encode a text chunk, and submit the
resulting buffer.  Returns the submitted buffer list. -/
def sender (value : LocalChunk) : Except Exc BufferList :=
  if value.isEmpty then Except.error Exc.eofError
  else
    Except.ok (match value with
      | LocalChunk.binary bs => bs
      | LocalChunk.text cs => pyUtf8EncodeReplace cs)

/-- What stdout receives from `SubprocessCat.__writer`: raw bytes when
stdout is binary, decoded text otherwise. -/
inductive LocalOut
  | bytes (bs : List Nat)
  | text (cs : List Nat)
  deriving DecidableEq, Repr

/-- `SubprocessCat.__writer(value)`: pass `value` through when
`self.__out_encoding is None`, else decode it with UTF-8/replace. -/
def SubprocessCat.writer (hasOutEncoding : Bool) (value : List Nat) : LocalOut :=
  if hasOutEncoding then LocalOut.text (pyUtf8DecodeReplace value)
  else LocalOut.bytes value

/-! ## The readiness loop of `SubprocessCat.run` -/

/-- One fd reported ready by `epoll.poll()`, together with what its handler
observes: the chunk `sys.stdin.read` returns for the stdin handler, or the
outcome of the (out-of-scope) `function.processEvents()` call for the
eventfd handler — an external `KeyboardInterrupt` surfaces as an error
there. -/
inductive FdReady
  | stdinReady (value : LocalChunk)
  | eventfdReady (result : Except Exc Unit)
  deriving Repr

/-- One iteration's poll outcome: `poll()` raises, or returns a list of
ready fds. -/
inductive PollResult
  | pollRaise (exc : Exc)
  | ready (events : List FdReady)
  deriving Repr

/-- Outcome of `SubprocessCat.run` on a finite script: still inside the
loop, terminated cleanly by the outer `except (KeyboardInterrupt,
EOFError): pass`, or terminated by a propagated exception.  Each carries
the buffer lists submitted so far. -/
inductive RunResult
  | running (submitted : List BufferList)
  | clean (submitted : List BufferList)
  | fatal (exc : Exc) (submitted : List BufferList)
  deriving DecidableEq, Repr

/-- Invoke one ready fd's handler from `event_dispatcher_dict`, returning
the buffer lists it submitted. -/
def dispatchOne : FdReady → Except Exc (List BufferList)
  | FdReady.stdinReady v =>
    match sender v with
    | Except.ok b => Except.ok [b]
    | Except.error e => Except.error e
  | FdReady.eventfdReady r =>
    match r with
    | Except.ok _ => Except.ok []
    | Except.error e => Except.error e

/-- `for fd, event in event_list:` — invoke the handlers in reported order;
an exception aborts the iteration, keeping the submissions already made. -/
def dispatchAll : List FdReady → List BufferList × Option Exc
  | [] => ([], none)
  | ev :: rest =>
    match dispatchOne ev with
    | Except.error e => ([], some e)
    | Except.ok bs =>
      let r := dispatchAll rest
      (bs ++ r.1, r.2)

/-- The outer `except (KeyboardInterrupt, EOFError): pass` of
`SubprocessCat.run`: those two exceptions end the run cleanly, anything
else propagates. -/
def unwind (e : Exc) (acc : List BufferList) : RunResult :=
  match e with
  | Exc.eofError => RunResult.clean acc
  | Exc.keyboardInterrupt => RunResult.clean acc
  | e => RunResult.fatal e acc

/-- The `while True` loop of `SubprocessCat.run` over a finite script of
poll outcomes: an `OSError(EINTR)` from `poll()` is retried, any other
`OSError` is re-raised; otherwise the ready handlers run and exceptions
unwind to the outer handler. -/
def runLoop (acc : List BufferList) : List PollResult → RunResult
  | [] => RunResult.running acc
  | PollResult.pollRaise exc :: rest =>
    match exc with
    | Exc.osError e => if e = EINTR then runLoop acc rest else unwind (Exc.osError e) acc
    | e => unwind e acc
  | PollResult.ready evs :: rest =>
    let r := dispatchAll evs
    match r.2 with
    | none => runLoop (acc ++ r.1) rest
    | some e => unwind e (acc ++ r.1)

/-- `SubprocessCat.run` on a script of poll outcomes. -/
def SubprocessCat.run (script : List PollResult) : RunResult :=
  runLoop [] script

/-! ## Helper lemmas -/

/-- Buffer lists a single event adds to the rejected list. -/
def stepRejectedList (e : CatEvent) : List BufferList :=
  match e with
  | CatEvent.submit b accepted => if accepted then [] else [b]
  | CatEvent.complete _ => []

theorem rejectedOf_cons (e : CatEvent) (es : List CatEvent) :
    rejectedOf (e :: es) = stepRejectedList e ++ rejectedOf es := by
  cases e with
  | submit b accepted => cases accepted <;> simp [rejectedOf, stepRejectedList]
  | complete status => simp [rejectedOf, stepRejectedList]

theorem catStep_fifo (s : CatState) (e : CatEvent) :
    (catStep s e).resubmitted ++ (catStep s e).ep.stranded_buffer_list_queue
      = s.resubmitted ++ s.ep.stranded_buffer_list_queue ++ stepRejectedList e := by
  cases e with
  | submit b accepted =>
    cases accepted <;>
      simp [catStep, EndpointINFile.onSubmitEAGAIN, stepRejectedList]
  | complete status =>
    cases hq : s.ep.stranded_buffer_list_queue with
    | nil => simp [catStep, EndpointINFile.onComplete, hq, stepRejectedList]
    | cons b rest =>
      by_cases hs : status = -ESHUTDOWN <;>
        simp [catStep, EndpointINFile.onComplete, hq, hs, stepRejectedList]

theorem catRun_fifo_aux (es : List CatEvent) :
    ∀ s : CatState,
      (es.foldl catStep s).resubmitted
          ++ (es.foldl catStep s).ep.stranded_buffer_list_queue
        = s.resubmitted ++ s.ep.stranded_buffer_list_queue ++ rejectedOf es := by
  induction es with
  | nil => intro s; simp [rejectedOf]
  | cons e es ih =>
    intro s
    rw [List.foldl_cons, ih (catStep s e), catStep_fifo, rejectedOf_cons,
      List.append_assoc]

/-- C1: for any event trace, the buffer lists handed back for resubmission
followed by the buffer lists still stranded are exactly the rejected buffer
lists in original submission order — FIFO resubmission, the first-queued
buffer is always retried next, nothing duplicated, nothing dropped. -/
theorem claim_C1_fifo_no_loss (es : List CatEvent) :
    (catRun es).resubmitted ++ (catRun es).ep.stranded_buffer_list_queue
      = rejectedOf es := by
  have h := catRun_fifo_aux es CatState.init
  simpa [catRun, CatState.init] using h

theorem catStep_cannotSendCount (s : CatState) (e : CatEvent) :
    (catStep s e).cannotSendCount
      = s.cannotSendCount + (stepRejectedList e).length := by
  cases e with
  | submit b accepted =>
    cases accepted <;>
      simp [catStep, EndpointINFile.onSubmitEAGAIN, stepRejectedList]
  | complete status =>
    cases hq : s.ep.stranded_buffer_list_queue with
    | nil => simp [catStep, EndpointINFile.onComplete, hq, stepRejectedList]
    | cons b rest =>
      by_cases hs : status = -ESHUTDOWN <;>
        simp [catStep, EndpointINFile.onComplete, hq, hs, stepRejectedList]

theorem catRun_cannotSendCount_aux (es : List CatEvent) :
    ∀ s : CatState,
      (es.foldl catStep s).cannotSendCount
        = s.cannotSendCount + (rejectedOf es).length := by
  induction es with
  | nil => intro s; simp [rejectedOf]
  | cons e es ih =>
    intro s
    rw [List.foldl_cons, ih (catStep s e), catStep_cannotSendCount, rejectedOf_cons]
    simp [Nat.add_assoc]

theorem catStep_canSendCount (s : CatState) (e : CatEvent) :
    (catStep s e).canSendCount
      = s.canSendCount
          + (if s.ep.stranded_buffer_list_queue ≠ []
                ∧ (catStep s e).ep.stranded_buffer_list_queue = []
              then 1 else 0) := by
  cases e with
  | submit b accepted =>
    cases accepted <;>
      simp [catStep, EndpointINFile.onSubmitEAGAIN]
  | complete status =>
    cases hq : s.ep.stranded_buffer_list_queue with
    | nil => simp [catStep, EndpointINFile.onComplete, hq]
    | cons b rest =>
      by_cases hs : status = -ESHUTDOWN
      · simp [catStep, EndpointINFile.onComplete, hq, hs]
      · cases rest with
        | nil => simp [catStep, EndpointINFile.onComplete, hq, hs]
        | cons b2 rest2 => simp [catStep, EndpointINFile.onComplete, hq, hs]

theorem countNonemptyToEmpty_cons (s s' : CatState) (es : List CatEvent) :
    countNonemptyToEmpty (s :: catStatesFrom s' es)
      = (if s.ep.stranded_buffer_list_queue ≠ []
            ∧ s'.ep.stranded_buffer_list_queue = []
          then 1 else 0) + countNonemptyToEmpty (catStatesFrom s' es) := by
  cases es with
  | nil => simp [catStatesFrom, countNonemptyToEmpty]
  | cons e es => simp [catStatesFrom, countNonemptyToEmpty]

theorem catRun_canSendCount_aux (es : List CatEvent) :
    ∀ s : CatState,
      (es.foldl catStep s).canSendCount
        = s.canSendCount + countNonemptyToEmpty (catStatesFrom s es) := by
  induction es with
  | nil => intro s; simp [catStatesFrom, countNonemptyToEmpty]
  | cons e es ih =>
    intro s
    rw [List.foldl_cons, ih (catStep s e)]
    show _ = s.canSendCount + countNonemptyToEmpty (s :: catStatesFrom (catStep s e) es)
    rw [countNonemptyToEmpty_cons, catStep_canSendCount]
    omega

/-- C2 counterexample: two rejected submissions in a row invoke the
"cannot send" callback twice although the stranded queue makes only one
empty→non-empty transition, contradicting "fired exactly once per
empty→non-empty transition" and "repeated rejections fire no additional
signal". -/
theorem claim_C2_counterexample :
    (catRun [CatEvent.submit [1] false, CatEvent.submit [2] false]).cannotSendCount = 2
      ∧ countEmptyToNonempty
          (catStates [CatEvent.submit [1] false, CatEvent.submit [2] false]) = 1
      ∧ (2 : Nat) ≠ 1 := by
  refine ⟨?_, ?_, by decide⟩ <;> rfl

/-- C2 (amended): the "cannot send" callback is invoked exactly once per
rejected submission — so a repeated rejection while the queue is already
non-empty does invoke it again, though its effect is idempotent — while the
"can send" callback is invoked exactly once per non-empty→empty transition
of the stranded queue. -/
theorem claim_C2_edge_counts (es : List CatEvent) :
    (catRun es).cannotSendCount = (rejectedOf es).length
      ∧ (catRun es).canSendCount = countNonemptyToEmpty (catStates es) := by
  constructor
  · have h := catRun_cannotSendCount_aux es CatState.init
    simpa [catRun, CatState.init] using h
  · have h := catRun_canSendCount_aux es CatState.init
    simpa [catRun, catStates, CatState.init] using h

/-- C3 counterexample: a completion with status `-ESHUTDOWN` and a non-empty
stranded queue indeed triggers no resubmission, but it is logged through the
same `'aio write completion error:'` trace line as any other negative
status — it is not discarded silently. -/
theorem claim_C3_counterexample :
    (EndpointINFile.onComplete ⟨[[1]]⟩ (-ESHUTDOWN)).resubmit = none
      ∧ (EndpointINFile.onComplete ⟨[[1]]⟩ (-ESHUTDOWN)).log
          = [LogLine.writeError 108]
      ∧ (EndpointINFile.onComplete ⟨[[1]]⟩ (-ESHUTDOWN)).log ≠ [] := by
  refine ⟨rfl, rfl, by decide⟩

/-- C3 (amended): a completion carrying the shutdown status never triggers a
resubmission and never fires "can send", and it leaves the stranded queue
untouched, even when the queue is non-empty; it is however logged as an
error, exactly like any other negative completion status. -/
theorem claim_C3_shutdown_no_resubmit (s : EndpointINFile) :
    (s.onComplete (-ESHUTDOWN)).resubmit = none
      ∧ (s.onComplete (-ESHUTDOWN)).state = s
      ∧ (s.onComplete (-ESHUTDOWN)).canSendFired = false
      ∧ (s.onComplete (-ESHUTDOWN)).log = [LogLine.writeError 108] := by
  cases s with
  | mk q =>
    cases q with
    | nil => refine ⟨rfl, rfl, rfl, ?_⟩; simp [EndpointINFile.onComplete, ESHUTDOWN]
    | cons b rest =>
      refine ⟨?_, ?_, ?_, ?_⟩ <;> simp [EndpointINFile.onComplete, ESHUTDOWN]

/-- C4: after `USBCat.onDisable` — and likewise after `USBCat.onUnbind` —
the stranded queue is empty and stdin is unregistered (local-input readiness
masked) without an exception, whatever the queue and registration state
before the event. -/
theorem claim_C4_disable_resets (ep : EndpointINFile) (registered : Bool) :
    (USBCat.onDisable ep registered).1.stranded_buffer_list_queue = []
      ∧ (USBCat.onDisable ep registered).2 = Except.ok false
      ∧ (USBCat.onUnbind ep registered).1.stranded_buffer_list_queue = []
      ∧ (USBCat.onUnbind ep registered).2 = Except.ok false := by
  cases registered <;>
    simp [USBCat.onDisable, USBCat.onUnbind, EndpointINFile.forgetStranded,
      SubprocessCat.stopSender, epollUnregister, ENOENT]

/-- C5: a sequence of successful read completions with payloads `b1..bN`
produces exactly the writer calls `b1..bN`, one call per completion, in
completion order, byte-for-byte. -/
theorem claim_C5_passthrough (bs : List BufferList) :
    sinkCalls (bs.map fun b => (some b, (b.length : Int))) = bs := by
  induction bs with
  | nil => rfl
  | cons b rest ih => simp [sinkCalls, EndpointOUTFile.onComplete, ih]

/-- C6: a read completion with a negative, non-shutdown status makes no
writer call and logs the error; processing continues, and the next
successful completion's payload reaches the writer unchanged. -/
theorem claim_C6_error_no_sink (e : Int) (he : e < 0) (hn : e ≠ -ESHUTDOWN)
    (b : BufferList) (n : Int) (cs : List (Option BufferList × Int)) :
    (EndpointOUTFile.onComplete none e).2 = []
      ∧ (EndpointOUTFile.onComplete none e).1 = [LogLine.readError (-e)]
      ∧ sinkCalls ((none, e) :: (some b, n) :: cs) = b :: sinkCalls cs := by
  refine ⟨rfl, rfl, ?_⟩
  simp [sinkCalls, EndpointOUTFile.onComplete]

/-- Witness for C6 at status `-5` and payload `"ok"` (`[111, 107]`). -/
theorem claim_C6_error_no_sink_witness :
    (EndpointOUTFile.onComplete none (-5)).2 = []
      ∧ (EndpointOUTFile.onComplete none (-5)).1 = [LogLine.readError 5]
      ∧ sinkCalls [(none, -5), (some [111, 107], 2)] = [[111, 107]] := by
  have h := claim_C6_error_no_sink (-5) (by decide) (by decide) [111, 107] 2 []
  simpa [sinkCalls] using h

/-- C7: a zero-length read from local input (binary or text mode) raises
`EOFError`, and an external interrupt surfacing as `KeyboardInterrupt`
during event processing likewise unwinds; in both cases the loop terminates
via the outer handler's `pass` — a clean exit, no error, no propagated
exception — whatever the loop was about to do next. -/
theorem claim_C7_clean_termination (rest : List PollResult) (acc : List BufferList) :
    runLoop acc (PollResult.ready [FdReady.stdinReady (LocalChunk.binary [])] :: rest)
        = RunResult.clean acc
      ∧ runLoop acc (PollResult.ready [FdReady.stdinReady (LocalChunk.text [])] :: rest)
          = RunResult.clean acc
      ∧ runLoop acc
            (PollResult.ready [FdReady.eventfdReady (Except.error Exc.keyboardInterrupt)]
              :: rest)
          = RunResult.clean acc
      ∧ SubprocessCat.run (PollResult.ready [FdReady.stdinReady (LocalChunk.binary [])] :: rest)
          = RunResult.clean [] := by
    refine ⟨?_, ?_, ?_, ?_⟩ <;>
      simp [SubprocessCat.run, runLoop, dispatchAll, dispatchOne, sender,
        LocalChunk.isEmpty, unwind]

/-- C8: an `OSError(EINTR)` raised by the blocking `poll()` is retried — the
loop continues with the accumulated submissions and the remaining script
untouched, no side effects — while an `OSError` with any other errno
propagates out of the loop as a fatal exception. -/
theorem claim_C8_eintr_retry (rest : List PollResult) (acc : List BufferList)
    (e : Nat) (he : e ≠ EINTR) :
    runLoop acc (PollResult.pollRaise (Exc.osError EINTR) :: rest) = runLoop acc rest
      ∧ runLoop acc (PollResult.pollRaise (Exc.osError e) :: rest)
          = RunResult.fatal (Exc.osError e) acc := by
  constructor
  · simp [runLoop]
  · simp [runLoop, he, unwind]

/-- Witness for C8 with errno 13 (EACCES) as the non-EINTR error. -/
theorem claim_C8_eintr_retry_witness :
    runLoop [] [PollResult.pollRaise (Exc.osError EINTR)] = runLoop [] []
      ∧ runLoop [] [PollResult.pollRaise (Exc.osError 13)]
          = RunResult.fatal (Exc.osError 13) [] :=
  claim_C8_eintr_retry [] [] 13 (by decide)

/-- C9 counterexample: invoking the "can send" signal a second time, when
stdin is already registered, is not a no-op — `epoll.register` is called
without exception handling and raises EEXIST. -/
theorem claim_C9_counterexample :
    SubprocessCat.onCanSend true = Except.error EEXIST := rfl

/-- C9 (amended): the "cannot send" transition is idempotent — for any
prior registration state it succeeds and leaves stdin unregistered, so a
second invocation in the masked state is a harmless no-op — but the
"can send" transition is not: it succeeds only from the unregistered state
and raises EEXIST when stdin is already registered. -/
theorem claim_C9_idempotence (r : Bool) :
    SubprocessCat.stopSender r = Except.ok false
      ∧ SubprocessCat.stopSender false = Except.ok false
      ∧ SubprocessCat.onCanSend false = Except.ok true
      ∧ SubprocessCat.onCanSend true = Except.error EEXIST := by
  cases r <;>
    simp [SubprocessCat.stopSender, SubprocessCat.onCanSend, epollRegister,
      epollUnregister, ENOENT]

/-- C10: text-mode chunks are UTF-8-encoded (errors='replace') before
submission and payloads are UTF-8-decoded (errors='replace') before being
written to a text-mode stdout, while binary-mode streams pass bytes through
verbatim; the decoding collapses distinct byte payloads (0xFF and 0xFE both
become U+FFFD) and the encoding collapses distinct texts (a lone surrogate
becomes `'?'`), so bytes are guaranteed to be preserved exactly end-to-end
only when both local streams are binary-mode. -/
theorem claim_C10_transcoding (cs bs p : List Nat) (hcs : cs ≠ []) (hbs : bs ≠ []) :
    sender (LocalChunk.text cs) = Except.ok (pyUtf8EncodeReplace cs)
      ∧ sender (LocalChunk.binary bs) = Except.ok bs
      ∧ SubprocessCat.writer true p = LocalOut.text (pyUtf8DecodeReplace p)
      ∧ SubprocessCat.writer false p = LocalOut.bytes p
      ∧ SubprocessCat.writer true [0xFF] = SubprocessCat.writer true [0xFE]
      ∧ ([0xFF] : List Nat) ≠ [0xFE]
      ∧ pyUtf8EncodeReplace [0xD800] = pyUtf8EncodeReplace [0x3F]
      ∧ ([0xD800] : List Nat) ≠ [0x3F]
      ∧ pyUtf8EncodeReplace [0x20AC] = [0xE2, 0x82, 0xAC]
      ∧ pyUtf8DecodeReplace [0xE2, 0x82, 0xAC] = [0x20AC] := by
  refine ⟨?_, ?_, rfl, rfl, by decide, by decide, by decide, by decide, by decide,
    by decide⟩
  · simp [sender, LocalChunk.isEmpty, hcs]
  · simp [sender, LocalChunk.isEmpty, hbs]

/-- Witness for C10 with text chunk `"hi"` and binary chunk `[0]`. -/
theorem claim_C10_transcoding_witness :
    sender (LocalChunk.text [104, 105]) = Except.ok (pyUtf8EncodeReplace [104, 105])
      ∧ sender (LocalChunk.binary [0]) = Except.ok [0]
      ∧ SubprocessCat.writer true [97] = LocalOut.text (pyUtf8DecodeReplace [97])
      ∧ SubprocessCat.writer false [97] = LocalOut.bytes [97]
      ∧ SubprocessCat.writer true [0xFF] = SubprocessCat.writer true [0xFE]
      ∧ ([0xFF] : List Nat) ≠ [0xFE]
      ∧ pyUtf8EncodeReplace [0xD800] = pyUtf8EncodeReplace [0x3F]
      ∧ ([0xD800] : List Nat) ≠ [0x3F]
      ∧ pyUtf8EncodeReplace [0x20AC] = [0xE2, 0x82, 0xAC]
      ∧ pyUtf8DecodeReplace [0xE2, 0x82, 0xAC] = [0x20AC] :=
  claim_C10_transcoding [104, 105] [0] [97] (by decide) (by decide)

end UsbCat
